import Mathlib

set_option linter.unusedVariables false
set_option maxRecDepth 4000

/-!
Verification of the concurrent dispatch and progress-aggregation engine of this
repository (practice.py and practice-3.py), as a shallow embedding.

Strings are modelled as lists of characters so that every operation is a
structural recursion the kernel can evaluate. Python dict counters become the
Status structure; the per-target task runner becomes a function from an
abstract execution event (subprocess completed with a given output-file state,
timeout, or any other exception raised inside the try block) to a counter and
result-log update, mirroring the control flow of brute_force_service.
-/

/-- Strings of the embedded program, as character lists. -/
abbrev Str := List Char

/-- Does the haystack start with the needle. -/
def leadMatch : Str → Str → Bool
  | _, [] => true
  | [], _ :: _ => false
  | a :: as, b :: bs => a == b && leadMatch as bs

/-- Substring test over character lists: model of the Python membership test
needle in hay (scans every suffix of the haystack). -/
def hasSub : Str → Str → Bool
  | [], needle => needle.isEmpty
  | c :: t, needle => leadMatch (c :: t) needle || hasSub t needle

/-- Model of the Python expression needle in hay on strings. -/
def pyIn (needle hay : Str) : Bool := hasSub hay needle

/-- Helper of pySplitWs: accumulates the current token in reverse. -/
def splitWsGo : Str → Str → List Str
  | [], acc => if acc.isEmpty then [] else [acc.reverse]
  | c :: cs, acc =>
    if c.isWhitespace then
      if acc.isEmpty then splitWsGo cs [] else acc.reverse :: splitWsGo cs []
    else splitWsGo cs (c :: acc)

/-- Model of Python line.split() with no argument: split on whitespace runs,
dropping empty tokens. -/
def pySplitWs (s : Str) : List Str := splitWsGo s []

/-- Model of Python s.split(sep) for a one-character separator: keeps empty
groups, returns one more group than there are separators. -/
def splitOnChar (sep : Char) : Str → List Str
  | [] => [[]]
  | c :: cs =>
    if c == sep then [] :: splitOnChar sep cs
    else
      match splitOnChar sep cs with
      | [] => [[c]]
      | g :: gs => (c :: g) :: gs

/-- The newline separator used by output.split in analyze_hydra_output. -/
def newlineChar : Char := Char.ofNat 10

/-- Drop leading whitespace characters. -/
def dropWsLead : Str → Str
  | [] => []
  | c :: cs => if c.isWhitespace then dropWsLead cs else c :: cs

/-- Model of Python s.strip(): drop whitespace at both ends. -/
def pyStrip (s : Str) : Str := (dropWsLead ((dropWsLead s).reverse)).reverse

/-- Model of Python list.index as an optional index: first position of an
exactly equal token, none when absent (the ValueError path). -/
def idxTokGo (tok : Str) : List Str → Option Nat
  | [] => none
  | p :: ps => if p == tok then some 0 else (idxTokGo tok ps).map (fun n => n + 1)

/-- ASCII lowercase of one character, the fragment of Python str.lower that
matters for the service names compared here. -/
def asciiLower (c : Char) : Char :=
  if 65 ≤ c.toNat ∧ c.toNat ≤ 90 then Char.ofNat (c.toNat + 32) else c

/-- Model of Python service.lower() for the ASCII service names used here. -/
def pyLower (s : Str) : Str := s.map asciiLower

example : pyIn "login:".data "x login: y".data = true := by decide
example : pyIn "login:".data "nothing here".data = false := by decide
example : pySplitWs "  a  bc ".data = ["a".data, "bc".data] := by decide
example : splitOnChar newlineChar "a\nb".data = ["a".data, "b".data] := by decide
example : pyStrip "  ab ".data = "ab".data := by decide
example : idxTokGo "x".data ["y".data, "x".data] = some 1 := by decide
example : pyLower "SsH".data = "ssh".data := by decide

/-! ## Data model: shared counters and result log (practice.py lines 28 to 43)

The STATUS dict holds total, tried, good, bad, na (start_time and the running
flag are wall-clock and thread-lifecycle state, outside the counter model).
RESULTS success entries carry service, target, username, password; the
timestamp field is wall-clock time and is omitted. -/

/-- The shared STATUS counters of practice.py. -/
structure Status where
  total : Nat
  tried : Nat
  good : Nat
  bad : Nat
  na : Nat
deriving DecidableEq, Repr

/-- STATUS as initialised at module load, with total set by main (line 238). -/
def initStatus (total : Nat) : Status := ⟨total, 0, 0, 0, 0⟩

/-- One entry of RESULTS success, as appended by analyze_hydra_output. -/
structure Creds where
  service : Str
  target : Str
  username : Str
  password : Str
deriving DecidableEq, Repr

/-! ## Outcome classifier: analyze_hydra_output (practice.py lines 64 to 108) -/

/-- Token searched for by the classifier. -/
def loginTok : Str := "login:".data

/-- Token searched for by the classifier. -/
def passTok : Str := "password:".data

/-- Token searched for by the classifier. -/
def sshTok : Str := "[ssh]".data

/-- Token searched for by the classifier. -/
def hostTok : Str := "host:".data

/-- One iteration of the line loop of analyze_hydra_output: the marker test
(substring membership in the line) followed by the try block that extracts
username and password from the whitespace-split parts. A missing exact token
(ValueError from list.index) or an out-of-range position (IndexError) makes
the except clause continue, modelled as none. -/
def lineCreds (line : Str) : Option (Str × Str) :=
  if (pyIn loginTok line && pyIn passTok line) || (pyIn sshTok line && pyIn hostTok line) then
    let parts := pySplitWs line
    if pyIn loginTok line && pyIn passTok line then
      match idxTokGo loginTok parts, idxTokGo passTok parts with
      | some i, some j =>
        match parts.get? (i + 1), parts.get? (j + 1) with
        | some u, some p => some (u, p)
        | _, _ => none
      | _, _ => none
    else
      match idxTokGo sshTok parts with
      | some i =>
        match parts.get? (i + 3), parts.get? (i + 5) with
        | some u, some p => some (u, p)
        | _, _ => none
      | none => none
  else none

/-- The credential pairs extracted from a list of lines, in line order: the
pure content of the analyze_hydra_output loop. -/
def scan_lines : List Str → List (Str × Str)
  | [] => []
  | l :: rest =>
    match lineCreds l with
    | some c => c :: scan_lines rest
    | none => scan_lines rest

/-- The line loop of analyze_hydra_output as a state transformer: per
extracted pair it appends to RESULTS success and increments STATUS good
(lines 91 to 92); lines whose extraction fails are skipped (line 108). -/
def analyzeGo (service target : Str) : List Str → Status → List Creds → Status × List Creds
  | [], st, res => (st, res)
  | l :: rest, st, res =>
    match lineCreds l with
    | some (u, p) =>
        analyzeGo service target rest {st with good := st.good + 1}
          (res ++ [⟨service, target, u, p⟩])
    | none => analyzeGo service target rest st res

/-- analyze_hydra_output(output, service, target): splits the raw output on
newlines and runs the line loop against the shared state. -/
def analyze_hydra_output (output service target : Str) (st : Status) (res : List Creds) :
    Status × List Creds :=
  analyzeGo service target (splitOnChar newlineChar output) st res

example : scan_lines ["host: x login: admin password: hunter2".data] =
    [("admin".data, "hunter2".data)] := by decide
example : scan_lines ["no markers".data, "login: only".data] = [] := by decide

/-! ## Task runner: brute_force_service (practice.py lines 110 to 180) -/

/-- What happened inside the try block of brute_force_service for one target:
the subprocess call returned in time and left the output artifact in the given
state (some content when the file exists and is non-empty, none when it is
missing or empty), or communicate raised TimeoutExpired, or any other
exception was raised inside the try block (spawn failure, I/O error). -/
inductive RunEvent where
  | completed (fileContent : Option Str)
  | timeoutExpired
  | exn
deriving DecidableEq, Repr

/-- The service dispatch test of brute_force_service: lines 116 and 128
compare service.lower() against ssh and rdp; anything else takes the early
return at line 139. The two supported branches differ only in the external
command they build, which is outside the counter model. -/
def supportedService (service : Str) : Bool :=
  pyLower service == "ssh".data || pyLower service == "rdp".data

/-- brute_force_service(service, target, username, password_list) as a
transformer of the shared STATUS counters and RESULTS success log, driven by
the execution event of its try block:
lines 137 to 139, unsupported service: early return, nothing touched;
lines 157 to 160, artifact present and non-empty: analyze_hydra_output runs;
lines 161 to 163, artifact missing or empty: bad is incremented;
lines 165 to 168, TimeoutExpired: na is incremented;
lines 169 to 173, any other exception: na is incremented;
lines 174 to 175, finally: tried is incremented on every path that entered
the try block. -/
def brute_force_service (service target username pwlist : Str) (ev : RunEvent)
    (st : Status) (res : List Creds) : Status × List Creds :=
  if supportedService service then
    match ev with
    | .completed (some output) =>
        let p := analyze_hydra_output output service target st res
        ({p.1 with tried := p.1.tried + 1}, p.2)
    | .completed none => ({st with bad := st.bad + 1, tried := st.tried + 1}, res)
    | .timeoutExpired => ({st with na := st.na + 1, tried := st.tried + 1}, res)
    | .exn => ({st with na := st.na + 1, tried := st.tried + 1}, res)
  else (st, res)

/-- The dispatch loop of main (practice.py lines 263 to 265) at task
granularity: one brute_force_service invocation per target, each with the
execution event its environment produced. The pool interleaves tasks, but
every shared-state update of one task is modelled at completion; quantifying
over all task lists covers all completion orders. -/
def run_all (service username pwlist : Str) :
    List (Str × RunEvent) → Status → List Creds → Status × List Creds
  | [], st, res => (st, res)
  | (tgt, ev) :: rest, st, res =>
    let p := brute_force_service service tgt username pwlist ev st res
    run_all service username pwlist rest p.1 p.2

/-- How many counter records one event produces among good, bad and na: the
artifact-present path records one good per extracted line (possibly zero or
several), every other path records exactly one counter. -/
def recordsOf (ev : RunEvent) : Nat :=
  match ev with
  | .completed (some output) => (scan_lines (splitOnChar newlineChar output)).length
  | .completed none => 1
  | .timeoutExpired => 1
  | .exn => 1

/-- An event whose processing increments exactly one of good, bad, na. -/
def yieldsOneRecord (ev : RunEvent) : Bool :=
  match ev with
  | .completed (some output) => (scan_lines (splitOnChar newlineChar output)).length == 1
  | .completed none => true
  | .timeoutExpired => true
  | .exn => true

/-! ## Progress reporter: status_monitor (practice.py lines 182 to 201) -/

/-- The completion-percentage computation of one status_monitor tick,
line 197: tried divided by total, times 100. Python evaluates this in float
arithmetic and raises ZeroDivisionError when total is zero; the model returns
none in that case and the percentage at integer precision otherwise. -/
def status_monitor_pct (st : Status) : Option Nat :=
  if st.total = 0 then none else some (st.tried * 100 / st.total)

/-! ## Session controller: main of practice.py (lines 203 to 301) -/

/-- How a run of main of practice.py terminates: exited carries the code
passed to sys.exit during validation; ran means validation passed and the run
proceeded to set STATUS total, start the monitor thread and dispatch, ending
in a normal return from main (process exit code zero). -/
inductive MainOutcome where
  | exited (code : Nat)
  | ran (total : Nat) (targets : List Str)
deriving DecidableEq, Repr

/-- The target-list load of main, line 236: strip each line, keep the
non-empty ones. -/
def load_targets (content : Str) : List Str :=
  ((splitOnChar newlineChar content).map pyStrip).filter (fun l => !l.isEmpty)

/-- The validation prefix of main of practice.py (lines 204 to 238):
argument count (line 204), targets file exists (line 215), password file
exists (line 219), hydra binary present or located through the which fallback
(lines 224 to 232); then STATUS total is set to the number of loaded targets
and the run proceeds. No check that the loaded target list is non-empty
exists in the source. -/
def bf_main (argcOk targetsFileOk pwFileOk hydraFound whichHydraOk : Bool)
    (targetsContent : Str) : MainOutcome :=
  if !argcOk then MainOutcome.exited 1
  else if !targetsFileOk then MainOutcome.exited 1
  else if !pwFileOk then MainOutcome.exited 1
  else if !hydraFound && !whichHydraOk then MainOutcome.exited 1
  else MainOutcome.ran (load_targets targetsContent).length (load_targets targetsContent)

/-- Process exit code of a main outcome: after validation, main of
practice.py contains no further sys.exit call, so a completed run exits with
code zero whatever the dispatch produced. -/
def bf_exit_code : MainOutcome → Nat
  | .exited c => c
  | .ran _ _ => 0

/-- The final-report loop of main (practice.py lines 282 to 288) appends one
block to the notifier message per element of RESULTS success, with no slicing
or truncation: the sequence of entries rendered is the whole list. -/
def bf_final_msg_results (success : List Creds) : List Creds := success

/-! ## Scan pipeline: practice-3.py -/

/-- One element of the masscan JSON report as the parse loop reads it: the
presence of the ip and ports keys, the address, and the port numbers listed
under ports. -/
structure ScanItem where
  hasIp : Bool
  ip : Str
  hasPorts : Bool
  ports : List Nat
deriving DecidableEq, Repr

/-- The parse loop of masscan_ips (practice-3.py lines 58 to 64): items with
both keys contribute (ip, ports[0]); an item with an empty ports list raises
IndexError, which the enclosing except Exception clause catches, abandoning
the rest of the loop while keeping what was already appended. -/
def masscan_collect : List ScanItem → List (Str × Nat) → List (Str × Nat)
  | [], acc => acc
  | item :: rest, acc =>
    if item.hasIp && item.hasPorts then
      match item.ports with
      | [] => acc
      | p :: _ => masscan_collect rest (acc ++ [(item.ip, p)])
    else masscan_collect rest acc

/-- How the masscan invocation of masscan_ips ended (practice-3.py lines 53
to 73): a zero exit with a parsed JSON report, invalid JSON, a non-zero exit,
a subprocess timeout, or any other exception. -/
inductive MasscanRun where
  | ok (items : List ScanItem)
  | badJson
  | nonzeroExit
  | timedOut
  | exn
deriving DecidableEq, Repr

/-- masscan_ips as a function of the run outcome: only a zero-exit run with
valid JSON contributes candidates; every failure path leaves results empty. -/
def masscan_ips : MasscanRun → List (Str × Nat)
  | .ok items => masscan_collect items []
  | .badJson => []
  | .nonzeroExit => []
  | .timedOut => []
  | .exn => []

/-- Exit behaviour of main of practice-3.py: a missing IP-list file is caught
at lines 113 to 115 with a print and a plain return, and no sys.exit call
exists anywhere in the script, so the interpreter exits with code zero both
on normal completion and on that validation failure. -/
def scan_main_exit (ipListFound : Bool) : Nat :=
  match ipListFound with
  | true => 0
  | false => 0

/-- The verified-IP preview placed in the completion message of practice-3.py
line 192: the first twenty entries. -/
def scan_results_preview (verified : List Str) : List Str := verified.take 20

/-- The overflow suffix of the completion message (practice-3.py lines 195 to
196): when more than twenty entries exist, the count of the remainder. -/
def scan_results_overflow (verified : List Str) : Option Nat :=
  if 20 < verified.length then some (verified.length - 20) else none

example : brute_force_service "ssh".data "h".data "u".data "p".data
    RunEvent.timeoutExpired (initStatus 3) [] = (⟨3, 1, 0, 0, 1⟩, []) := by decide
example : brute_force_service "http".data "h".data "u".data "p".data
    RunEvent.exn (initStatus 3) [] = (initStatus 3, []) := by decide
example : masscan_ips (MasscanRun.ok [⟨true, "1.2.3.4".data, true, [22, 3389]⟩]) =
    [("1.2.3.4".data, 22)] := by decide
example : load_targets "10.0.0.1\n\n 10.0.0.2 \n".data =
    ["10.0.0.1".data, "10.0.0.2".data] := by decide
example : bf_main true true true false true "10.0.0.1\n".data =
    MainOutcome.ran 1 ["10.0.0.1".data] := by decide

/-! ## Helper lemmas -/

/-- Closed form of the analyze_hydra_output line loop: the good counter grows
by the number of extracted pairs, the other counters are untouched, and the
extracted pairs are appended to the result log in line order. -/
theorem analyzeGo_spec (service target : Str) (lines : List Str) :
    ∀ (st : Status) (res : List Creds),
      analyzeGo service target lines st res
        = ({st with good := st.good + (scan_lines lines).length},
           res ++ (scan_lines lines).map (fun c => ⟨service, target, c.1, c.2⟩)) := by
  induction lines with
  | nil => intro st res; simp [analyzeGo, scan_lines]
  | cons l rest ih =>
      intro st res
      cases hl : lineCreds l with
      | none =>
          simp only [analyzeGo, hl, scan_lines]
          exact ih st res
      | some c =>
          obtain ⟨u, p⟩ := c
          simp only [analyzeGo, hl, scan_lines]
          rw [ih]
          have hg : st.good + 1 + (scan_lines rest).length
              = st.good + ((scan_lines rest).length + 1) := by omega
          rw [hg]
          simp

/-- Per-task counter effect of brute_force_service for a supported service:
total is never written, tried grows by one, and the records among good, bad
and na grow by recordsOf of the event. -/
theorem bfs_effect (service target username pwlist : Str) (ev : RunEvent)
    (st : Status) (res : List Creds) (hsupp : supportedService service = true) :
    ((brute_force_service service target username pwlist ev st res).1.total = st.total)
    ∧ ((brute_force_service service target username pwlist ev st res).1.tried = st.tried + 1)
    ∧ ((brute_force_service service target username pwlist ev st res).1.good
        + (brute_force_service service target username pwlist ev st res).1.bad
        + (brute_force_service service target username pwlist ev st res).1.na
        = st.good + st.bad + st.na + recordsOf ev) := by
  cases ev with
  | completed fc =>
      cases fc with
      | none =>
          simp [brute_force_service, hsupp, recordsOf]
          omega
      | some output =>
          simp [brute_force_service, hsupp, recordsOf, analyze_hydra_output,
            analyzeGo_spec]
          omega
  | timeoutExpired =>
      simp [brute_force_service, hsupp, recordsOf]
      omega
  | exn =>
      simp [brute_force_service, hsupp, recordsOf]
      omega

/-- Counter bookkeeping of a whole dispatch: after processing a task list for
a supported service, total is unchanged, tried grew by the number of tasks,
and the records grew by the sum of recordsOf over the events. -/
theorem run_all_counts (service username pwlist : Str)
    (hsupp : supportedService service = true) :
    ∀ (tasks : List (Str × RunEvent)) (st : Status) (res : List Creds),
      ((run_all service username pwlist tasks st res).1.total = st.total)
      ∧ ((run_all service username pwlist tasks st res).1.tried = st.tried + tasks.length)
      ∧ ((run_all service username pwlist tasks st res).1.good
          + (run_all service username pwlist tasks st res).1.bad
          + (run_all service username pwlist tasks st res).1.na
          = st.good + st.bad + st.na + (tasks.map (fun t => recordsOf t.2)).sum) := by
  intro tasks
  induction tasks with
  | nil => intro st res; simp [run_all]
  | cons tsk rest ih =>
      intro st res
      obtain ⟨tgt, ev⟩ := tsk
      have hstep := bfs_effect service tgt username pwlist ev st res hsupp
      have hrest := ih (brute_force_service service tgt username pwlist ev st res).1
        (brute_force_service service tgt username pwlist ev st res).2
      simp only [run_all, List.length_cons, List.map_cons, List.sum_cons]
      refine ⟨?_, ?_, ?_⟩ <;> omega

/-- An event passing the one-record test produces exactly one record. -/
theorem recordsOf_eq_one (ev : RunEvent) (h : yieldsOneRecord ev = true) :
    recordsOf ev = 1 := by
  cases ev with
  | completed fc =>
      cases fc with
      | none => rfl
      | some output => simpa [yieldsOneRecord, recordsOf] using h
  | timeoutExpired => rfl
  | exn => rfl

/-- When every event of a task list produces exactly one record, the summed
record count equals the number of tasks. -/
theorem sum_records_eq_length (tasks : List (Str × RunEvent))
    (h : ∀ t ∈ tasks, yieldsOneRecord t.2 = true) :
    (tasks.map (fun t => recordsOf t.2)).sum = tasks.length := by
  induction tasks with
  | nil => rfl
  | cons tsk rest ih =>
      simp only [List.map_cons, List.sum_cons, List.length_cons,
        recordsOf_eq_one tsk.2 (h tsk (List.mem_cons_self tsk rest)),
        ih (fun t ht => h t (List.mem_cons_of_mem tsk ht))]
      omega

/-- A service that lowercases to neither ssh nor rdp fails the dispatch
test. -/
theorem supportedService_eq_false (service : Str)
    (h1 : pyLower service ≠ "ssh".data) (h2 : pyLower service ≠ "rdp".data) :
    supportedService service = false := by
  simp [supportedService, h1, h2]

/-- For an unsupported service the whole dispatch is a no-op on the shared
state. -/
theorem run_all_noop (service username pwlist : Str)
    (hs : supportedService service = false) :
    ∀ (tasks : List (Str × RunEvent)) (st : Status) (res : List Creds),
      run_all service username pwlist tasks st res = (st, res) := by
  intro tasks
  induction tasks with
  | nil => intro st res; rfl
  | cons tsk rest ih =>
      intro st res
      obtain ⟨tgt, ev⟩ := tsk
      simp [run_all, brute_force_service, hs, ih]

/-- A list of lines none of which passes the marker test extracts nothing. -/
theorem scan_lines_eq_nil (lines : List Str)
    (h : ∀ l ∈ lines, lineCreds l = none) : scan_lines lines = [] := by
  induction lines with
  | nil => rfl
  | cons l rest ih =>
      simp only [scan_lines, h l (List.mem_cons_self l rest)]
      exact ih (fun t ht => h t (List.mem_cons_of_mem l ht))

/-- Closed form of masscan collection when no listed entry has an empty port
list: each entry carrying both keys contributes its address paired with the
first listed port. -/
theorem masscan_collect_spec (items : List ScanItem)
    (h : ∀ it ∈ items, (it.hasIp && it.hasPorts) = true → it.ports ≠ []) :
    ∀ (acc : List (Str × Nat)),
      masscan_collect items acc
        = acc ++ items.filterMap (fun it =>
            if (it.hasIp && it.hasPorts) = true then
              (it.ports.head?).map (fun p => (it.ip, p))
            else none) := by
  induction items with
  | nil => intro acc; simp [masscan_collect]
  | cons item rest ih =>
      intro acc
      have ihr := ih (fun t ht hkk => h t (List.mem_cons_of_mem item ht) hkk)
      by_cases hk : (item.hasIp && item.hasPorts) = true
      · cases hp : item.ports with
        | nil => exact absurd hp (h item (List.mem_cons_self item rest) hk)
        | cons p ps =>
            have hstep : masscan_collect (item :: rest) acc
                = masscan_collect rest (acc ++ [(item.ip, p)]) := by
              simp [masscan_collect, hk, hp]
            have hk2 := hk
            rw [Bool.and_eq_true] at hk2
            rw [hstep, ihr]
            simp [List.filterMap_cons, hk2.1, hk2.2, hp, List.append_assoc]
      · simp only [Bool.not_eq_true] at hk
        have hstep : masscan_collect (item :: rest) acc = masscan_collect rest acc := by
          simp [masscan_collect, hk]
        have hnone : ¬ (item.hasIp = true ∧ item.hasPorts = true) := by
          simp [← Bool.and_eq_true, hk]
        rw [hstep, ihr]
        simp [List.filterMap_cons, hnone]

/-- A run of bf_main that proceeds to dispatch carries the loaded target
list and its length as total. -/
theorem bf_main_ran_inv (a t p hy w : Bool) (content : Str) (n : Nat) (ts : List Str)
    (hr : bf_main a t p hy w content = MainOutcome.ran n ts) :
    n = ts.length ∧ ts = load_targets content := by
  cases a <;> cases t <;> cases p <;> cases hy <;> cases w <;>
    simp [bf_main] at hr <;>
    exact ⟨by rw [← hr.2]; exact hr.1.symm, hr.2.symm⟩

/-! ## Claims -/

/-- C1 (counterexample): the claimed invariant tried equals good plus bad
plus na fails on the code. A single completed task whose output artifact is
present and non-empty but contains no recognized success marker increments
tried in the finally block while incrementing none of good, bad, na: after
that record, tried is one and the three outcome counters sum to zero. -/
theorem C1_counterexample :
    ¬ ((run_all "ssh".data "u".data "p".data
          [("h".data, RunEvent.completed (some "hydra stopped".data))] (initStatus 1) []).1.tried
        = (run_all "ssh".data "u".data "p".data
            [("h".data, RunEvent.completed (some "hydra stopped".data))] (initStatus 1) []).1.good
          + (run_all "ssh".data "u".data "p".data
              [("h".data, RunEvent.completed (some "hydra stopped".data))] (initStatus 1) []).1.bad
          + (run_all "ssh".data "u".data "p".data
              [("h".data, RunEvent.completed (some "hydra stopped".data))] (initStatus 1) []).1.na) := by
  decide

/-- C1 (amended): for a supported service and any interleaving of task
completions, tried never exceeds total, unconditionally, whatever mix of
marker-free, single-marker or multi-marker artifacts the run produced; and
the equation tried equals good plus bad plus na holds after all records
provided every completed task with a present non-empty output artifact
yields exactly one extracted success line (the restriction forced by the
counterexample: a marker-free artifact records nothing and an artifact with
several markers increments good several times). -/
theorem C1_amended_invariant (service username pwlist : Str)
    (tasks : List (Str × RunEvent))
    (hsupp : supportedService service = true) :
    ((∀ t ∈ tasks, yieldsOneRecord t.2 = true) →
      (run_all service username pwlist tasks (initStatus tasks.length) []).1.tried
        = (run_all service username pwlist tasks (initStatus tasks.length) []).1.good
          + (run_all service username pwlist tasks (initStatus tasks.length) []).1.bad
          + (run_all service username pwlist tasks (initStatus tasks.length) []).1.na)
    ∧ (run_all service username pwlist tasks (initStatus tasks.length) []).1.tried
      ≤ (run_all service username pwlist tasks (initStatus tasks.length) []).1.total := by
  have hc := run_all_counts service username pwlist hsupp tasks (initStatus tasks.length) []
  simp only [initStatus] at hc ⊢
  refine ⟨fun hone => ?_, by omega⟩
  have hs := sum_records_eq_length tasks hone
  omega

/-- C1 (witness): the amended invariant evaluated on a one-task run whose
event is a timeout. -/
theorem C1_amended_invariant_witness :
    ((run_all "ssh".data "u".data "p".data [("h".data, RunEvent.timeoutExpired)]
        (initStatus 1) []).1.tried
      = (run_all "ssh".data "u".data "p".data [("h".data, RunEvent.timeoutExpired)]
          (initStatus 1) []).1.good
        + (run_all "ssh".data "u".data "p".data [("h".data, RunEvent.timeoutExpired)]
            (initStatus 1) []).1.bad
        + (run_all "ssh".data "u".data "p".data [("h".data, RunEvent.timeoutExpired)]
            (initStatus 1) []).1.na)
    ∧ (run_all "ssh".data "u".data "p".data [("h".data, RunEvent.timeoutExpired)]
        (initStatus 1) []).1.tried
      ≤ (run_all "ssh".data "u".data "p".data [("h".data, RunEvent.timeoutExpired)]
          (initStatus 1) []).1.total := by
  have h := C1_amended_invariant "ssh".data "u".data "p".data
    [("h".data, RunEvent.timeoutExpired)] (by decide)
  exact ⟨h.1 (by decide), h.2⟩

/-- C2: a task whose subprocess call raises TimeoutExpired records the
indeterminate outcome: na and tried are incremented and good, bad and the
result log are untouched, for every supported service and every prior
state. -/
theorem C2_timeout_indeterminate (service target username pwlist : Str)
    (st : Status) (res : List Creds)
    (hsupp : supportedService service = true) :
    brute_force_service service target username pwlist RunEvent.timeoutExpired st res
      = ({st with na := st.na + 1, tried := st.tried + 1}, res) := by
  simp [brute_force_service, hsupp]

/-- C2 (witness): the timeout record evaluated from the initial state of a
three-target ssh run. -/
theorem C2_timeout_indeterminate_witness :
    brute_force_service "ssh".data "h".data "u".data "p".data RunEvent.timeoutExpired
      (initStatus 3) [] = (⟨3, 1, 0, 0, 1⟩, []) := by
  exact C2_timeout_indeterminate "ssh".data "h".data "u".data "p".data
    (initStatus 3) [] (by decide)

/-- C3: any exception other than the timeout raised inside the task runner
try block is converted to the indeterminate outcome (na and tried
incremented, nothing else touched), and the runner is total, so a run
containing failing tasks still processes every task: after any task list the
tried counter equals the number of tasks processed, whatever mix of events
occurred. -/
theorem C3_exn_contained (target username pwlist : Str) (st : Status)
    (res : List Creds) (tasks : List (Str × RunEvent)) :
    (brute_force_service "ssh".data target username pwlist RunEvent.exn st res
        = ({st with na := st.na + 1, tried := st.tried + 1}, res))
    ∧ (run_all "ssh".data username pwlist tasks st res).1.tried = st.tried + tasks.length := by
  have hs : supportedService "ssh".data = true := by decide
  exact ⟨by simp [brute_force_service, hs],
    (run_all_counts "ssh".data username pwlist hs tasks st res).2.1⟩

/-- C4 (counterexample): the claim that a raw output without recognized
success tokens increments the bad counter exactly once fails on the code.
When the output artifact exists and is non-empty but no line matches,
analyze_hydra_output records nothing at all: bad stays at zero. -/
theorem C4_counterexample :
    ¬ ((brute_force_service "ssh".data "h".data "u".data "p".data
          (RunEvent.completed (some "hydra stopped no results".data)) (initStatus 1) []).1.bad
        = (initStatus 1).bad + 1) := by
  decide

/-- C4 (amended): classification never raises and yields no success for
marker-free output, but the task then ends with only tried incremented; the
bad counter is incremented exactly once only when the output artifact is
missing or empty; and a line whose extraction fails is skipped, scanning
continuing with the remaining lines. -/
theorem C4_amended_no_marker (service target username pwlist output : Str)
    (st : Status) (res : List Creds)
    (hsupp : supportedService service = true)
    (h : ∀ line ∈ splitOnChar newlineChar output, lineCreds line = none) :
    brute_force_service service target username pwlist
        (RunEvent.completed (some output)) st res
      = ({st with tried := st.tried + 1}, res)
    ∧ brute_force_service service target username pwlist
        (RunEvent.completed none) st res
      = ({st with bad := st.bad + 1, tried := st.tried + 1}, res)
    ∧ ∀ (l : Str) (rest : List Str), lineCreds l = none →
        scan_lines (l :: rest) = scan_lines rest := by
  refine ⟨?_, ?_, ?_⟩
  · have h0 := scan_lines_eq_nil (splitOnChar newlineChar output) h
    simp [brute_force_service, hsupp, analyze_hydra_output, analyzeGo_spec, h0]
  · simp [brute_force_service, hsupp]
  · intro l rest hl
    simp [scan_lines, hl]

/-- C4 (witness): a completed ssh task whose artifact holds one marker-free
line ends with only tried incremented. -/
theorem C4_amended_no_marker_witness :
    brute_force_service "ssh".data "h".data "u".data "p".data
        (RunEvent.completed (some "hydra finished".data)) (initStatus 2) []
      = (⟨2, 1, 0, 0, 0⟩, []) := by
  exact (C4_amended_no_marker "ssh".data "h".data "u".data "p".data
    "hydra finished".data (initStatus 2) [] (by decide) (by decide)).1

/-- C5 (counterexample): the claim that every open port of a report entry is
surfaced fails on the code. An entry listing two open ports contributes only
ports[0]: the second port never reaches the verification candidates. -/
theorem C5_counterexample :
    ¬ (("10.0.0.1".data, 3389)
        ∈ masscan_ips (MasscanRun.ok [⟨true, "10.0.0.1".data, true, [22, 3389]⟩])) := by
  decide

/-- C5 (amended): when every entry carrying both keys has a non-empty port
list, the candidates handed to the verification stage are exactly the
address of each such entry paired with the first listed port; ports after
the first in the same entry are dropped. -/
theorem C5_amended_first_port (items : List ScanItem)
    (h : ∀ it ∈ items, (it.hasIp && it.hasPorts) = true → it.ports ≠ []) :
    masscan_ips (MasscanRun.ok items)
      = items.filterMap (fun it =>
          if (it.hasIp && it.hasPorts) = true then
            (it.ports.head?).map (fun p => (it.ip, p))
          else none) := by
  simpa [masscan_ips] using masscan_collect_spec items h []

/-- C5 (witness): the candidate list of a two-entry report, the first entry
listing two open ports. -/
theorem C5_amended_first_port_witness :
    masscan_ips (MasscanRun.ok
        [⟨true, "10.0.0.1".data, true, [22, 3389]⟩, ⟨true, "10.0.0.2".data, true, [80]⟩])
      = [("10.0.0.1".data, 22), ("10.0.0.2".data, 80)] := by
  exact (C5_amended_first_port
    [⟨true, "10.0.0.1".data, true, [22, 3389]⟩, ⟨true, "10.0.0.2".data, true, [80]⟩]
    (by decide)).trans (by decide)

/-- C6 (counterexample): the claim that the session controller validates a
non-empty target list before starting the reporter fails on the code. With a
targets file containing no non-blank line, validation passes, the run
proceeds to set total to zero and start the monitor, and the first monitor
tick divides tried by a zero total. -/
theorem C6_counterexample :
    bf_main true true true true true [] = MainOutcome.ran 0 []
    ∧ status_monitor_pct ⟨0, 0, 0, 0, 0⟩ = none := by
  exact ⟨by decide, by decide⟩

/-- C6 (amended): main sets total to the number of loaded targets before the
monitor starts, but performs no non-emptiness check; whenever the loaded
list happens to be non-empty, total is positive and the percentage of every
monitor tick is defined. -/
theorem C6_amended_nonempty_guard (a t p hy w : Bool) (content : Str)
    (n : Nat) (ts : List Str) (tried good bad na : Nat)
    (hr : bf_main a t p hy w content = MainOutcome.ran n ts) (hne : ts ≠ []) :
    0 < n ∧ status_monitor_pct ⟨n, tried, good, bad, na⟩ ≠ none := by
  obtain ⟨hn, hts⟩ := bf_main_ran_inv a t p hy w content n ts hr
  subst hts
  have hpos : 0 < n := by
    have := List.length_pos.mpr hne
    omega
  refine ⟨hpos, ?_⟩
  simp [status_monitor_pct, Nat.pos_iff_ne_zero.mp hpos]

/-- C6 (witness): a run over one loaded target reaches dispatch with a
positive total and a defined first-tick percentage. -/
theorem C6_amended_nonempty_guard_witness :
    0 < 1 ∧ status_monitor_pct ⟨1, 0, 0, 0, 0⟩ ≠ none := by
  exact C6_amended_nonempty_guard true true true true true "10.0.0.1\n".data 1
    ["10.0.0.1".data] 0 0 0 0 (by decide) (by decide)

/-- C7 (counterexample): the claim that input-validation failure exits
non-zero for both entry points fails on the scan script. A missing IP-list
file is caught with a print and a plain return from main, so the process
exits with code zero. -/
theorem C7_counterexample : scan_main_exit false = 0 := by
  decide

/-- C7 (amended): the brute-force entry point exits zero exactly when its
validations pass (argument count, targets file, password file, hydra present
or found through the which fallback) and non-zero otherwise, regardless of
how many targets succeeded; the scan entry point exits zero both on normal
completion and on a missing IP-list file. -/
theorem C7_amended_exit_codes (a t p hy w : Bool) (content : Str) :
    (bf_exit_code (bf_main a t p hy w content) = 0 ↔ (a && t && p && (hy || w)) = true)
    ∧ scan_main_exit true = 0 ∧ scan_main_exit false = 0 := by
  refine ⟨?_, rfl, rfl⟩
  cases a <;> cases t <;> cases p <;> cases hy <;> cases w <;> simp [bf_main, bf_exit_code]

/-- C8 (counterexample): the claim that the final summary always truncates
the success list to at most twenty entries fails on the brute-force script.
Its final-report loop renders every element of the success log: with
twenty-one recorded successes the message holds twenty-one entries. -/
theorem C8_counterexample :
    ¬ ((bf_final_msg_results
          (List.replicate 21 ⟨"ssh".data, "h".data, "root".data, "pw".data⟩)).length ≤ 20) := by
  decide

/-- C8 (amended): the scan pipeline truncates its verified list to the first
twenty entries and appends the count of the remainder exactly when more than
twenty exist, while the brute-force pipeline places the full untruncated
success list in its final message. -/
theorem C8_amended_truncation (verified : List Str) (success : List Creds) :
    (scan_results_preview verified).length ≤ 20
    ∧ scan_results_preview verified ++ verified.drop 20 = verified
    ∧ (scan_results_overflow verified = none ↔ verified.length ≤ 20)
    ∧ bf_final_msg_results success = success := by
  refine ⟨?_, ?_, ?_, rfl⟩
  · simp [scan_results_preview, List.length_take]
  · exact List.take_append_drop 20 verified
  · by_cases h20 : 20 < verified.length
    · simp [scan_results_overflow, h20]
    · simp [scan_results_overflow, h20]
      omega

/-- C9 (counterexample): the claim that classification has no side effect on
shared state fails on the code. Analyzing an output holding one success
marker increments the shared good counter and appends to the shared result
log, leaving the counters different from the initial state. -/
theorem C9_counterexample :
    ¬ ((analyze_hydra_output "host: x login: admin password: hunter2".data
          "ssh".data "h".data (initStatus 5) []).1 = initStatus 5) := by
  decide

/-- C9 (amended): classification is deterministic, a pure function of the
raw output and the service and target labels: its result equals a closed
form in which good grows by the number of extracted pairs, every other
counter is untouched, and exactly those pairs are appended to the result
log, whatever the prior shared state; contrary to the original claim it
does mutate that shared state. -/
theorem C9_amended_classification (output service target : Str)
    (st : Status) (res : List Creds) :
    analyze_hydra_output output service target st res
      = ({st with good := st.good + (scan_lines (splitOnChar newlineChar output)).length},
         res ++ (scan_lines (splitOnChar newlineChar output)).map
            (fun c => ⟨service, target, c.1, c.2⟩)) := by
  exact analyzeGo_spec service target (splitOnChar newlineChar output) st res

/-- C10: a call of the task runner with a service other than ssh or rdp
(case-insensitive) returns before the try block: shared counters and the
result log are left exactly as they were for every event and state, and a
whole run over such tasks ends with tried still below total, the targets
silently unaccounted. -/
theorem C10_unsupported_noop (service : Str)
    (h1 : pyLower service ≠ "ssh".data) (h2 : pyLower service ≠ "rdp".data) :
    (∀ (target username pwlist : Str) (ev : RunEvent) (st : Status) (res : List Creds),
        brute_force_service service target username pwlist ev st res = (st, res))
    ∧ ∀ (username pwlist : Str) (tasks : List (Str × RunEvent)), tasks ≠ [] →
        (run_all service username pwlist tasks (initStatus tasks.length) []).1.tried
          < (run_all service username pwlist tasks (initStatus tasks.length) []).1.total := by
  have hs := supportedService_eq_false service h1 h2
  constructor
  · intro target username pwlist ev st res
    simp [brute_force_service, hs]
  · intro username pwlist tasks hne
    rw [run_all_noop service username pwlist hs tasks (initStatus tasks.length) []]
    simpa [initStatus] using List.length_pos.mpr hne

/-- C10 (witness): an http task leaves the state untouched and a one-task
http run ends with tried zero, below total one. -/
theorem C10_unsupported_noop_witness :
    brute_force_service "http".data "h".data "u".data "p".data RunEvent.exn (initStatus 2) []
      = (initStatus 2, [])
    ∧ (run_all "http".data "u".data "p".data [("h".data, RunEvent.exn)] (initStatus 1) []).1.tried
      < (run_all "http".data "u".data "p".data [("h".data, RunEvent.exn)] (initStatus 1) []).1.total := by
  have h := C10_unsupported_noop "http".data (by decide) (by decide)
  exact ⟨h.1 "h".data "u".data "p".data RunEvent.exn (initStatus 2) [],
    h.2 "u".data "p".data [("h".data, RunEvent.exn)] (by decide)⟩
